import Mathlib

/-!
Shallow embedding of the PancakeSwap volume booster (trader.py and main.py).

External chain interactions (balance reads, gas estimation, gas price,
nonce, broadcast, receipt awaiting) are modelled as `Except Err Int`
values supplied by an environment record: `Except.ok v` is the value the
RPC call returned, `Except.error e` means the call raised. Python
integers are `Int`; Python float or Decimal quantities produced by
dividing by a decimals divisor are modelled exactly as `Rat`.
-/

deriving instance DecidableEq for Except

namespace Booster

/-- Kinds of Python exceptions the embedded code distinguishes. -/
inductive Err
  | rpc
  | insufficientBuy
  | invalidAmount
  | typeErr
deriving DecidableEq

/-- Transaction receipt: web3 receipt restricted to the one field read. -/
structure Receipt where
  status : Int
deriving DecidableEq

/-- Embeds `Trader.max_approval_int` (trader.py 11-12): 64 hex f digits. -/
def max_approval_int : Int := 2 ^ 256 - 1

/-- Embeds `Trader.max_approval_check_int` (trader.py 13-14): 15 hex zeros then 49 f digits. -/
def max_approval_check_int : Int := 2 ^ 196 - 1

/-- Python truthiness of the `tx_fee` argument: `None` and `0` are falsy. -/
def truthyFee : Option Int → Bool
  | none => false
  | some f => decide (f ≠ 0)

/-- Embeds `Trader.estimate_gas` (trader.py 75-77): raw estimate plus a 20000 buffer. -/
def estimate_gas (raw : Int) : Int := raw + 20000

/-- Embeds `Trader._calc_tx_fee` (trader.py 96-98). -/
def calc_tx_fee (gas_limit gas_price : Int) : Int := gas_limit * gas_price

/-- Embeds `Web3.fromWei(wei, ether)` as exact division by 10 to the 18. -/
def wei_to_eth (wei : Int) : ℚ := (wei : ℚ) / (10 ^ 18 : ℚ)

/-- Environment for the gas estimation path of `Trader.can_buy`:
result of `function.estimateGas` (before the buffer) and `web3.eth.gas_price`. -/
structure CanBuyEnv where
  estGasRaw : Except Err Int
  gasPrice : Except Err Int

/-- Embeds `Trader.can_buy` (trader.py 58-64). The wallet argument only
matters through its truthiness, so it is an `Option Int`. When the branch
`if not tx_fee and wallet` is taken, the fee is re-estimated from the
environment; the final line `bnb - (tx_fee * 6) > 0` raises a TypeError
when `tx_fee` is still `None`. -/
def can_buy (env : CanBuyEnv) (bnb : Int) (wallet : Option Int) (tx_fee : Option Int) :
    Except Err Bool :=
  if !truthyFee tx_fee && wallet.isSome then
    match env.estGasRaw with
    | Except.error e => Except.error e
    | Except.ok raw =>
      match env.gasPrice with
      | Except.error e => Except.error e
      | Except.ok gp =>
        Except.ok (decide (bnb - calc_tx_fee (estimate_gas raw) gp * 6 > 0))
  else
    match tx_fee with
    | none => Except.error Err.typeErr
    | some f => Except.ok (decide (bnb - f * 6 > 0))

/-- Transaction parameter dict built by `Trader._get_tx_params`
(the `from` field carries no logic and is omitted). -/
structure TxParams where
  value : Int
  gas : Int
  gasPrice : Int
  nonce : Int
deriving DecidableEq

/-- The `CanBuyEnv` passed when `_get_tx_params` calls `self.can_buy(value, tx_fee=tx_fee)`:
that call supplies no wallet, so the estimation environment is never consulted. -/
def dummyCanBuyEnv : CanBuyEnv := ⟨Except.error Err.rpc, Except.error Err.rpc⟩

/-- Embeds `Trader._get_tx_params` (trader.py 79-94). The three external
reads (gas estimation for the call, gas price, transaction count) are
supplied as `Except` values in source order. For a positive value the fee
is computed, `can_buy` gates the transaction, and the value is reduced by
six times the fee. -/
def get_tx_params (estGasE gasPriceE nonceE : Except Err Int) (value : Int) :
    Except Err TxParams :=
  match estGasE with
  | Except.error e => Except.error e
  | Except.ok raw =>
    match gasPriceE with
    | Except.error e => Except.error e
    | Except.ok gas_price =>
      let gas_limit := estimate_gas raw
      if 0 < value then
        let tx_fee := calc_tx_fee gas_limit gas_price
        match can_buy dummyCanBuyEnv value none (some tx_fee) with
        | Except.error e => Except.error e
        | Except.ok ok =>
          if ok then
            match nonceE with
            | Except.error e => Except.error e
            | Except.ok nonce =>
              Except.ok ⟨value - tx_fee * 6, gas_limit, gas_price, nonce⟩
          else Except.error Err.insufficientBuy
      else
        match nonceE with
        | Except.error e => Except.error e
        | Except.ok nonce => Except.ok ⟨value, gas_limit, gas_price, nonce⟩

/-- Embeds `Trader._is_approved` (trader.py 36-41), with the allowance
contract call supplied by the environment. -/
def is_approved (allowanceE : Except Err Int) : Except Err Bool :=
  match allowanceE with
  | Except.error e => Except.error e
  | Except.ok amount => Except.ok (decide (amount ≥ max_approval_check_int))

/-- The result dict returned by `Trader.buy` and `Trader.sell`:
transaction hash (as an integer), receipt status, native amount moved
(in ether units), token amount moved (scaled by the decimals divisor). -/
structure TradeResult where
  tx : Int
  status : Int
  bnb : ℚ
  amount : ℚ
deriving DecidableEq

/-- Log lines relevant to the claims: the success line, the
transaction-failed error line, and the two exception handlers. -/
inductive LogEvent
  | successLogged
  | txFailedLogged
  | buyErrorLogged
  | sellErrorLogged
deriving DecidableEq

/-- Environment of one `Trader.buy` call: results of the external calls
in source order (token balance before, gas estimate, gas price, nonce,
sign-and-broadcast returning a hash, receipt await, token balance after,
native balance after). -/
structure BuyEnv where
  tokenBefore : Except Err Int
  estGasRaw : Except Err Int
  gasPrice : Except Err Int
  nonce : Except Err Int
  send : Except Err Int
  receipt : Except Err Receipt
  tokenAfter : Except Err Int
  bnbAfter : Except Err Int

/-- Body of `Trader.buy` (trader.py 123-149) before the exception handler:
any raising step aborts with the exception. The returned dict reports the
native value actually placed, the receipt status, and the formatted token
balance difference. The final native balance read participates only in
logging but can still raise. -/
def buyBody (d : Int) (env : BuyEnv) (bnb_amount : Int) :
    Except Err (List LogEvent × TradeResult) :=
  match env.tokenBefore with
  | Except.error e => Except.error e
  | Except.ok balance_before =>
    match get_tx_params env.estGasRaw env.gasPrice env.nonce bnb_amount with
    | Except.error e => Except.error e
    | Except.ok tx_params =>
      let bnb_used := wei_to_eth tx_params.value
      match env.send with
      | Except.error e => Except.error e
      | Except.ok tx_hash =>
        match env.receipt with
        | Except.error e => Except.error e
        | Except.ok receipt =>
          match env.tokenAfter with
          | Except.error e => Except.error e
          | Except.ok after_raw =>
            match env.bnbAfter with
            | Except.error e => Except.error e
            | Except.ok _after_bnb =>
              let logs := if receipt.status = 1 then [LogEvent.successLogged]
                          else [LogEvent.txFailedLogged]
              Except.ok (logs,
                ⟨tx_hash, receipt.status, bnb_used,
                 (after_raw : ℚ) / (d : ℚ) - (balance_before : ℚ) / (d : ℚ)⟩)

/-- Embeds `Trader.buy` (trader.py 123-151): the whole body runs under
`try`, and the `except` handler logs and returns `None`. -/
def buy (d : Int) (env : BuyEnv) (bnb_amount : Int) :
    List LogEvent × Option TradeResult :=
  match buyBody d env bnb_amount with
  | Except.ok (logs, r) => (logs, some r)
  | Except.error _ => ([LogEvent.buyErrorLogged], none)

/-- On-chain side effects of a `Trader.sell` call: broadcast of an
approval transaction (with the approved amount), the fixed sleep after
approval, and broadcast of the swap transaction. -/
inductive Action
  | approveBroadcast (amount : Int)
  | sleepSec (secs : Int)
  | swapBroadcast
deriving DecidableEq

/-- Environment of one `Trader.sell` call: allowance read, the external
calls of the approval transaction when one is sent (gas estimate, gas
price, nonce, sign-and-broadcast, receipt await), then the native balance
before, the swap transaction calls, and the two balance reads after. -/
structure SellEnv where
  allowance : Except Err Int
  approveEstGasRaw : Except Err Int
  approveGasPrice : Except Err Int
  approveNonce : Except Err Int
  approveSend : Except Err Int
  approveReceipt : Except Err Receipt
  bnbBefore : Except Err Int
  estGasRaw : Except Err Int
  gasPrice : Except Err Int
  nonce : Except Err Int
  send : Except Err Int
  receipt : Except Err Receipt
  tokenAfter : Except Err Int
  bnbAfter : Except Err Int

/-- The part of `Trader.sell` after any approval (trader.py 168-190):
native balance before, transaction parameters with value 0, broadcast,
receipt await, the two balance reads after, then the result dict whose
amount field is the requested amount divided by the decimals divisor.
Returns the on-chain actions performed together with the result; a
raising step loses the result but keeps the actions already performed. -/
def sellSwap (d : Int) (env : SellEnv) (amount : Int) :
    List Action × Option TradeResult :=
  match env.bnbBefore with
  | Except.error _ => ([], none)
  | Except.ok before_bnb_raw =>
    match get_tx_params env.estGasRaw env.gasPrice env.nonce 0 with
    | Except.error _ => ([], none)
    | Except.ok _tx_params =>
      match env.send with
      | Except.error _ => ([], none)
      | Except.ok tx_hash =>
        match env.receipt with
        | Except.error _ => ([Action.swapBroadcast], none)
        | Except.ok receipt =>
          match env.tokenAfter with
          | Except.error _ => ([Action.swapBroadcast], none)
          | Except.ok _after_tokens =>
            match env.bnbAfter with
            | Except.error _ => ([Action.swapBroadcast], none)
            | Except.ok after_bnb_raw =>
              ([Action.swapBroadcast],
               some ⟨tx_hash, receipt.status,
                     wei_to_eth after_bnb_raw - wei_to_eth before_bnb_raw,
                     (amount : ℚ) / (d : ℚ)⟩)

/-- Embeds `Trader.sell` (trader.py 162-193) including the approval path
`Trader.approve` (trader.py 26-34): the whole body runs under `try`; a
non-positive amount raises at once; if the allowance is below
`max_approval_check_int` an approval transaction for `max_approval_int`
is built, broadcast and awaited, followed by `time.sleep(1)`; then the
swap itself runs. The `except` handler logs and returns `None`. -/
def sell (d : Int) (env : SellEnv) (amount : Int) :
    List Action × Option TradeResult :=
  if amount ≤ 0 then ([], none)
  else
    match is_approved env.allowance with
    | Except.error _ => ([], none)
    | Except.ok approved =>
      if approved then sellSwap d env amount
      else
        match get_tx_params env.approveEstGasRaw env.approveGasPrice env.approveNonce 0 with
        | Except.error _ => ([], none)
        | Except.ok _approve_params =>
          match env.approveSend with
          | Except.error _ => ([], none)
          | Except.ok _approve_tx =>
            match env.approveReceipt with
            | Except.error _ => ([Action.approveBroadcast max_approval_int], none)
            | Except.ok _approve_receipt =>
              (Action.approveBroadcast max_approval_int :: Action.sleepSec 1
                 :: (sellSwap d env amount).1,
               (sellSwap d env amount).2)

/-- Observable steps of one per-wallet iteration of `boost_volume`. -/
inductive Event
  | readBnb (v : Int)
  | buyCall (v : Int)
  | notifySent
  | sleepSec (secs : Int)
  | readTokens (v : Int)
  | sellCall (v : Int)
deriving DecidableEq

/-- Environment of one per-wallet iteration of `boost_volume`: the native
balance read, the estimation environment of the affordability check, the
buy call environment, the token balance read, the sell call environment. -/
structure CycleEnv where
  bnbBalance : Except Err Int
  canBuyEnv : CanBuyEnv
  buyEnv : BuyEnv
  tokenBalance : Except Err Int
  sellEnv : SellEnv

/-- Embeds one per-wallet iteration of `boost_volume` (main.py 46-62).
The result is the list of observable steps together with `some ()` when
the iteration ran to the final sleep, or `none` when an uncaught
exception escaped the iteration and terminated the polling task. The
notification lines subscript the buy or sell result, so a `None` result
raises a TypeError at that point; the condition `bnb > 0 and
trader.can_buy(...)` short-circuits, and an exception from `can_buy`
itself also escapes. -/
def cycle (d : Int) (wallet : Int) (interval : Int) (env : CycleEnv) :
    List Event × Option Unit :=
  match env.bnbBalance with
  | Except.error _ => ([], none)
  | Except.ok bnb =>
    let t0 := [Event.readBnb bnb]
    match (if 0 < bnb then can_buy env.canBuyEnv bnb (some wallet) none
           else Except.ok false) with
    | Except.error _ => (t0, none)
    | Except.ok cond =>
      let afterBuy : List Event × Option Unit :=
        if cond then
          match (buy d env.buyEnv bnb).2 with
          | none => ([Event.buyCall bnb], none)
          | some _ => ([Event.buyCall bnb, Event.notifySent, Event.sleepSec 10], some ())
        else ([], some ())
      match afterBuy.2 with
      | none => (t0 ++ afterBuy.1, none)
      | some _ =>
        match env.tokenBalance with
        | Except.error _ => (t0 ++ afterBuy.1, none)
        | Except.ok tokens =>
          let t1 := t0 ++ afterBuy.1 ++ [Event.readTokens tokens]
          let afterSell : List Event × Option Unit :=
            if 0 < tokens then
              match (sell d env.sellEnv tokens).2 with
              | none => ([Event.sellCall tokens], none)
              | some _ => ([Event.sellCall tokens, Event.notifySent], some ())
            else ([], some ())
          match afterSell.2 with
          | none => (t1 ++ afterSell.1, none)
          | some _ => (t1 ++ afterSell.1 ++ [Event.sleepSec interval], some ())

/-! Concrete environments used to evaluate the model at specific inputs. -/

/-- A buy call whose external calls all succeed: raw gas estimate 1, gas
price 1, nonce 3, transaction hash 77, receipt status 1, token balance 0
before and 50 after, native balance 999 after. -/
def okBuyEnv : BuyEnv :=
  ⟨Except.ok 0, Except.ok 1, Except.ok 1, Except.ok 3, Except.ok 77,
   Except.ok ⟨1⟩, Except.ok 50, Except.ok 999⟩

/-- Same as `okBuyEnv` except the mined receipt reports status 0. -/
def revertBuyEnv : BuyEnv :=
  ⟨Except.ok 0, Except.ok 1, Except.ok 1, Except.ok 3, Except.ok 77,
   Except.ok ⟨0⟩, Except.ok 50, Except.ok 999⟩

/-- Same as `okBuyEnv` except the broadcast raises an RPC error. -/
def sendFailBuyEnv : BuyEnv :=
  ⟨Except.ok 0, Except.ok 1, Except.ok 1, Except.ok 3, Except.error Err.rpc,
   Except.ok ⟨1⟩, Except.ok 50, Except.ok 999⟩

/-- Same as `okBuyEnv` except the token balance read after the swap raises. -/
def tokenAfterFailBuyEnv : BuyEnv :=
  ⟨Except.ok 0, Except.ok 1, Except.ok 1, Except.ok 3, Except.ok 77,
   Except.ok ⟨1⟩, Except.error Err.rpc, Except.ok 999⟩

/-- A sell call whose external calls all succeed and whose wallet has
allowance 0 for the router (below the approval threshold). -/
def lowSellEnv : SellEnv :=
  ⟨Except.ok 0, Except.ok 2, Except.ok 1, Except.ok 4, Except.ok 88, Except.ok ⟨1⟩,
   Except.ok 5, Except.ok 3, Except.ok 1, Except.ok 5, Except.ok 99, Except.ok ⟨1⟩,
   Except.ok 0, Except.ok 7⟩

/-- A sell call whose external calls all succeed and whose wallet already
has the maximal allowance for the router. -/
def hiSellEnv : SellEnv :=
  ⟨Except.ok max_approval_int, Except.ok 2, Except.ok 1, Except.ok 4, Except.ok 88,
   Except.ok ⟨1⟩,
   Except.ok 5, Except.ok 3, Except.ok 1, Except.ok 5, Except.ok 99, Except.ok ⟨1⟩,
   Except.ok 0, Except.ok 7⟩

/-- A per-wallet cycle with native balance one ether, affordable fee,
a buy whose broadcast raises, token balance 7 and an approved sell. -/
def sendFailCycleEnv : CycleEnv :=
  ⟨Except.ok (10 ^ 18), ⟨Except.ok 1, Except.ok 1⟩, sendFailBuyEnv, Except.ok 7, hiSellEnv⟩

/-- A per-wallet cycle with native balance one ether, affordable fee,
a buy whose post-swap token balance read raises, token balance 7 and an
approved sell. -/
def crashCycleEnv : CycleEnv :=
  ⟨Except.ok (10 ^ 18), ⟨Except.ok 1, Except.ok 1⟩, tokenAfterFailBuyEnv, Except.ok 7, hiSellEnv⟩

/-- A per-wallet cycle in which every external call succeeds. -/
def okCycleEnv : CycleEnv :=
  ⟨Except.ok (10 ^ 18), ⟨Except.ok 1, Except.ok 1⟩, okBuyEnv, Except.ok 7, hiSellEnv⟩

/-- The trade result of `sell 1 hiSellEnv 5`. -/
def sellResW : TradeResult :=
  ⟨99, 1, wei_to_eth 7 - wei_to_eth 5, ((5 : Int) : ℚ) / ((1 : Int) : ℚ)⟩

/-- The trade result of `buy 1 okBuyEnv 0`. -/
def buyResW : TradeResult :=
  ⟨77, 1, wei_to_eth 0, ((50 : Int) : ℚ) / ((1 : Int) : ℚ) - ((0 : Int) : ℚ) / ((1 : Int) : ℚ)⟩

/-- The transaction parameters built for a buy of 1000000 wei with raw gas
estimate 1, gas price 1 and nonce 3. -/
def buyParamsW : TxParams := ⟨1000000 - 120006, 20001, 1, 3⟩

/-- Evaluation of can_buy on its two boolean-returning paths: a supplied
fee with no wallet compares against that fee; a wallet with no fee and
successful estimation compares against the estimated fee. -/
theorem can_buy_eval :
    (∀ (env : CanBuyEnv) (bnb f : Int),
        can_buy env bnb none (some f) = Except.ok (decide (6 * f < bnb)))
    ∧ (∀ (raw gp bnb w : Int),
        can_buy ⟨Except.ok raw, Except.ok gp⟩ bnb (some w) none
          = Except.ok (decide (6 * ((raw + 20000) * gp) < bnb))) := by
  constructor
  · intro env bnb f
    simp only [can_buy, Option.isSome_none, Bool.and_false, Bool.false_eq_true, if_false]
    congr 1
    rw [decide_eq_decide]
    omega
  · intro raw gp bnb w
    simp only [can_buy, truthyFee, Option.isSome_some, Bool.not_false, Bool.true_and,
      calc_tx_fee, estimate_gas, if_true]
    congr 1
    rw [decide_eq_decide]
    omega

/-- C2: can_buy decides exactly whether the native balance strictly
exceeds six times the transaction fee, both when a fee is supplied and
when the fee is estimated from the gas limit and gas price; at or below
the threshold it returns ok false, never an error. -/
theorem can_buy_threshold :
    (∀ (env : CanBuyEnv) (bnb f : Int),
        can_buy env bnb none (some f) = Except.ok (decide (6 * f < bnb)))
    ∧ (∀ (raw gp bnb w : Int),
        can_buy ⟨Except.ok raw, Except.ok gp⟩ bnb (some w) none
          = Except.ok (decide (6 * ((raw + 20000) * gp) < bnb))) :=
  can_buy_eval

/-- C6: a sell with non-positive token amount raises at once inside the
try block: no allowance read result is used, no approval, no broadcast,
and the call returns no result. -/
theorem sell_fails_fast (d : Int) (env : SellEnv) (amount : Int) (h : amount ≤ 0) :
    sell d env amount = ([], none) := by
  simp [sell, h]

/-- C6 witness: selling amount 0 performs no action and yields no result. -/
theorem sell_fails_fast_witness : sell 1 lowSellEnv 0 = ([], none) :=
  sell_fails_fast 1 lowSellEnv 0 (by decide)

/-- C3 counterexample: with a zero gas price the estimated fee is zero,
the affordability check passes, and the value placed in the transaction
parameters equals the full requested balance of 1 wei. -/
theorem full_balance_spent_zero_gas_price :
    get_tx_params (Except.ok 0) (Except.ok 0) (Except.ok 0) 1 = Except.ok ⟨1, 20000, 0, 0⟩ := by
  decide

/-- C3 amended: for a positive requested value the value placed equals
the requested balance minus six times the estimated fee; whenever the
raw gas estimate is nonnegative and the gas price is positive (so the
fee is positive) the placed value is strictly below the full balance. -/
theorem buy_value_adjustment (raw gp n value : Int) (params : TxParams) (hv : 0 < value)
    (hparams : get_tx_params (Except.ok raw) (Except.ok gp) (Except.ok n) value
      = Except.ok params) :
    params.value = value - 6 * calc_tx_fee (estimate_gas raw) gp
    ∧ (0 ≤ raw → 0 < gp → params.value < value) := by
  unfold get_tx_params at hparams
  dsimp only at hparams
  rw [if_pos hv] at hparams
  rcases h : can_buy dummyCanBuyEnv value none
      (some (calc_tx_fee (estimate_gas raw) gp)) with e | ok
  · rw [h] at hparams; cases hparams
  · rw [h] at hparams
    have hok := can_buy_eval.1 dummyCanBuyEnv value (calc_tx_fee (estimate_gas raw) gp)
    rw [h] at hok
    rcases ok with _ | _
    · simp at hparams
    · simp only [if_true] at hparams
      cases hparams
      have hlt : 6 * calc_tx_fee (estimate_gas raw) gp < value := by
        have := hok
        simp only [Except.ok.injEq] at this
        exact of_decide_eq_true this.symm
      constructor
      · simp [calc_tx_fee, estimate_gas]; ring
      · intro hraw hgp
        have hfee : 0 < calc_tx_fee (estimate_gas raw) gp := by
          simp only [calc_tx_fee, estimate_gas]
          exact mul_pos (by omega) hgp
        simp only [calc_tx_fee, estimate_gas] at hfee ⊢
        omega

/-- C3 witness: a buy of 1000000 wei at raw estimate 1 and gas price 1
places 1000000 minus six times the fee, strictly less than the balance. -/
theorem buy_value_adjustment_witness :
    buyParamsW.value = 1000000 - 6 * calc_tx_fee (estimate_gas 1) 1
    ∧ (0 ≤ (1 : Int) → 0 < (1 : Int) → buyParamsW.value < 1000000) :=
  buy_value_adjustment 1 1 3 1000000 buyParamsW (by decide) (by decide)



/-- C8: the fee used everywhere is (raw estimate + 20000) times the gas
price: as the composition of the estimator and the fee calculator, inside
the affordability check, and inside the value adjustment of the built
transaction parameters. -/
theorem tx_fee_accounting :
    (∀ raw gp : Int, calc_tx_fee (estimate_gas raw) gp = (raw + 20000) * gp)
    ∧ (∀ raw gp bnb w : Int,
        can_buy ⟨Except.ok raw, Except.ok gp⟩ bnb (some w) none
          = Except.ok (decide ((raw + 20000) * gp * 6 < bnb)))
    ∧ (∀ raw gp n value : Int, 0 < value → (raw + 20000) * gp * 6 < value →
        get_tx_params (Except.ok raw) (Except.ok gp) (Except.ok n) value
          = Except.ok ⟨value - (raw + 20000) * gp * 6, raw + 20000, gp, n⟩) := by
  refine ⟨fun raw gp => rfl, fun raw gp bnb w => ?_, fun raw gp n value hv hfee => ?_⟩
  · rw [can_buy_eval.2 raw gp bnb w]
    congr 1
    rw [decide_eq_decide]
    omega
  · unfold get_tx_params
    dsimp only
    rw [if_pos hv]
    have h := can_buy_eval.1 dummyCanBuyEnv value (calc_tx_fee (estimate_gas raw) gp)
    rw [h]
    have : decide (6 * calc_tx_fee (estimate_gas raw) gp < value) = true := by
      simp only [calc_tx_fee, estimate_gas]
      rw [decide_eq_true_eq]
      omega
    rw [this]
    simp only [if_true, calc_tx_fee, estimate_gas]

/-- C8 witness: the fee accounting at raw estimate 1, gas price 1,
nonce 3, and a buy of 1000000 wei. -/
theorem tx_fee_accounting_witness :
    calc_tx_fee (estimate_gas 1) 1 = (1 + 20000) * 1
    ∧ can_buy ⟨Except.ok 1, Except.ok 1⟩ 1000000 (some 0) none
        = Except.ok (decide ((1 + 20000) * 1 * 6 < (1000000 : Int)))
    ∧ get_tx_params (Except.ok 1) (Except.ok 1) (Except.ok 3) 1000000
        = Except.ok ⟨1000000 - (1 + 20000) * 1 * 6, 1 + 20000, 1, 3⟩ :=
  ⟨tx_fee_accounting.1 1 1, tx_fee_accounting.2.1 1 1 1000000 0,
   tx_fee_accounting.2.2 1 1 3 1000000 (by decide) (by decide)⟩

/-- C1: at this input the broadcast raises inside buy; buy catches the
exception, logs it and yields no result, but the cycle then subscripts
the missing result in the notification line, so the iteration aborts
after the buy call (no token read, no sell, no interval pause) and the
polling task terminates instead of continuing. -/
theorem buy_failure_kills_loop :
    buy 1 sendFailBuyEnv (10 ^ 18) = ([LogEvent.buyErrorLogged], none)
    ∧ cycle 1 0 30 sendFailCycleEnv
        = ([Event.readBnb (10 ^ 18), Event.buyCall (10 ^ 18)], none) := by
  decide

/-- C5 counterexample: in this cycle the buy is performed but yields no
result (its post-swap balance read raises), so the notification line
raises: the token balance, though positive, is never read, the sell is
never attempted, and the interval pause never happens. -/
theorem cycle_crash_skips_rest :
    (cycle 1 0 30 crashCycleEnv).2 = none
    ∧ Event.readTokens 7 ∉ (cycle 1 0 30 crashCycleEnv).1
    ∧ Event.sellCall 7 ∉ (cycle 1 0 30 crashCycleEnv).1
    ∧ Event.sleepSec 30 ∉ (cycle 1 0 30 crashCycleEnv).1 := by
  decide



/-- The swap phase of sell performs at most the swap broadcast: its action
trace is empty or the single swap broadcast. -/
theorem sellSwap_actions (d : Int) (env : SellEnv) (amount : Int) :
    (sellSwap d env amount).1 = [] ∨ (sellSwap d env amount).1 = [Action.swapBroadcast] := by
  unfold sellSwap
  rcases env.bnbBefore with e | v
  · simp
  · dsimp only
    rcases get_tx_params env.estGasRaw env.gasPrice env.nonce 0 with e | p
    · simp
    · dsimp only
      rcases env.send with e | tx
      · simp
      · dsimp only
        rcases env.receipt with e | r
        · simp
        · dsimp only
          rcases env.tokenAfter with e | t
          · simp
          · dsimp only
            rcases env.bnbAfter with e | b <;> simp

/-- C4: a sell of a positive amount (with the approval-path external
calls succeeding) broadcasts an approval for the maximal allowance,
followed by the one-second wait, exactly when the current allowance is
below the near-maximum threshold; with the maximal allowance in place
(as after a successful approval) a further sell does not re-approve. -/
theorem sell_approval_trigger (d : Int) (env : SellEnv) (amount a g p n tx : Int) (r : Receipt)
    (hamt : 0 < amount) (hall : env.allowance = Except.ok a)
    (hg : env.approveEstGasRaw = Except.ok g) (hp : env.approveGasPrice = Except.ok p)
    (hn : env.approveNonce = Except.ok n) (hs : env.approveSend = Except.ok tx)
    (hr : env.approveReceipt = Except.ok r) :
    (Action.approveBroadcast max_approval_int ∈ (sell d env amount).1
       ↔ a < max_approval_check_int)
    ∧ (Action.sleepSec 1 ∈ (sell d env amount).1 ↔ a < max_approval_check_int)
    ∧ (a = max_approval_int → Action.approveBroadcast max_approval_int ∉ (sell d env amount).1) := by
  have hmax : max_approval_check_int ≤ max_approval_int := by
    unfold max_approval_check_int max_approval_int
    norm_num
  have hne : ¬ amount ≤ 0 := by omega
  unfold sell
  rw [if_neg hne, hall]
  unfold is_approved
  dsimp only
  by_cases hcase : max_approval_check_int ≤ a
  · rw [if_pos (by simpa using hcase)]
    rcases sellSwap_actions d env amount with h1 | h1 <;>
      simp [h1, hcase, not_lt.mpr hcase]
  · rw [if_neg (by simpa using hcase)]
    rw [hg, hp, hn]
    have hparams : get_tx_params (Except.ok g) (Except.ok p) (Except.ok n) 0
        = Except.ok ⟨0, estimate_gas g, p, n⟩ := by
      unfold get_tx_params
      dsimp only
      rw [if_neg (by omega)]
    rw [hparams]
    dsimp only
    rw [hs, hr]
    dsimp only
    have hlt : a < max_approval_check_int := by omega
    refine ⟨by simp [hlt], by simp [hlt], fun heq => ?_⟩
    exfalso
    omega

/-- C4 witness: at allowance 0 the approval for the maximal allowance and
the one-second wait are both performed. -/
theorem sell_approval_trigger_witness :
    (Action.approveBroadcast max_approval_int ∈ (sell 1 lowSellEnv 5).1
       ↔ (0 : Int) < max_approval_check_int)
    ∧ (Action.sleepSec 1 ∈ (sell 1 lowSellEnv 5).1 ↔ (0 : Int) < max_approval_check_int)
    ∧ ((0 : Int) = max_approval_int
       → Action.approveBroadcast max_approval_int ∉ (sell 1 lowSellEnv 5).1) :=
  sell_approval_trigger 1 lowSellEnv 5 0 2 1 4 88 ⟨1⟩ (by decide) rfl rfl rfl rfl rfl rfl

/-- C7: when every external call of a buy succeeds and the awaited
receipt carries a status other than 1, buy logs the transaction-failed
error line, does not raise, and still returns a result whose status
field is that failing status. -/
theorem buy_revert_reported (d : Int) (env : BuyEnv) (bnb b tx af ab s : Int)
    (params : TxParams)
    (hb : env.tokenBefore = Except.ok b)
    (hparams : get_tx_params env.estGasRaw env.gasPrice env.nonce bnb = Except.ok params)
    (hsend : env.send = Except.ok tx)
    (hrec : env.receipt = Except.ok ⟨s⟩)
    (haf : env.tokenAfter = Except.ok af)
    (hab : env.bnbAfter = Except.ok ab)
    (hs1 : s ≠ 1) :
    buy d env bnb
      = ([LogEvent.txFailedLogged],
         some ⟨tx, s, wei_to_eth params.value,
               (af : ℚ) / (d : ℚ) - (b : ℚ) / (d : ℚ)⟩) := by
  unfold buy buyBody
  rw [hb]
  dsimp only
  rw [hparams]
  dsimp only
  rw [hsend]
  dsimp only
  rw [hrec]
  dsimp only
  rw [haf]
  dsimp only
  rw [hab]
  simp [hs1]

/-- C7 witness: a buy whose receipt reports status 0 returns a result
recording status 0 after logging the failure. -/
theorem buy_revert_reported_witness :
    buy 1 revertBuyEnv 0
      = ([LogEvent.txFailedLogged],
         some ⟨77, 0, wei_to_eth (⟨0, 20001, 1, 3⟩ : TxParams).value,
               (50 : ℚ) / (1 : ℚ) - (0 : ℚ) / (1 : ℚ)⟩) :=
  buy_revert_reported 1 revertBuyEnv 0 0 77 50 999 0 ⟨0, 20001, 1, 3⟩
    rfl (by decide) rfl rfl rfl rfl (by decide)

/-- The swap phase of sell only ever returns a result whose amount field
is the requested amount divided by the decimals divisor. -/
theorem sellSwap_amount (d : Int) (env : SellEnv) (amount : Int) (r : TradeResult)
    (h : (sellSwap d env amount).2 = some r) :
    r.amount = (amount : ℚ) / (d : ℚ) := by
  unfold sellSwap at h
  repeat' split at h
  all_goals simp_all
  cases h
  rfl

/-- C9: every sell result reports as amount the requested input amount
divided by the decimals divisor, whatever the measured balances; every
buy result reports as amount the measured post-swap minus pre-swap
formatted token balance difference. -/
theorem trade_amount_reporting :
    (∀ (d : Int) (env : SellEnv) (amount : Int) (r : TradeResult),
        (sell d env amount).2 = some r → r.amount = (amount : ℚ) / (d : ℚ))
    ∧ (∀ (d : Int) (env : BuyEnv) (bnb b af : Int) (r : TradeResult),
        env.tokenBefore = Except.ok b → env.tokenAfter = Except.ok af →
        (buy d env bnb).2 = some r
          → r.amount = (af : ℚ) / (d : ℚ) - (b : ℚ) / (d : ℚ)) := by
  constructor
  · intro d env amount r h
    unfold sell at h
    split at h
    · simp at h
    · split at h
      · simp at h
      · split at h
        · exact sellSwap_amount d env amount r h
        · split at h
          · simp at h
          · split at h
            · simp at h
            · split at h
              · simp at h
              · exact sellSwap_amount d env amount r h
  · intro d env bnb b af r hb haf h
    unfold buy at h
    rcases hbody : buyBody d env bnb with e | lr
    · rw [hbody] at h; simp at h
    · rw [hbody] at h
      dsimp only at h
      unfold buyBody at hbody
      rw [hb] at hbody
      dsimp only at hbody
      split at hbody
      · cases hbody
      · split at hbody
        · cases hbody
        · split at hbody
          · cases hbody
          · rw [haf] at hbody
            dsimp only at hbody
            split at hbody
            · cases hbody
            · cases hbody
              cases h
              rfl

set_option maxRecDepth 40000 in
/-- C9 witness: the sell result at hiSellEnv reports amount 5 divided by
divisor 1, the buy result at okBuyEnv reports the measured balance
difference 50 minus 0. -/
theorem trade_amount_reporting_witness :
    sellResW.amount = ((5 : Int) : ℚ) / ((1 : Int) : ℚ)
    ∧ buyResW.amount
        = ((50 : Int) : ℚ) / ((1 : Int) : ℚ) - ((0 : Int) : ℚ) / ((1 : Int) : ℚ) :=
  ⟨trade_amount_reporting.1 1 hiSellEnv 5 sellResW rfl,
   trade_amount_reporting.2 1 okBuyEnv 0 0 50 buyResW rfl rfl rfl⟩

/-- C5 amended: in a cycle whose balance reads succeed and whose
performed trades yield results, the native balance is read first, the buy
runs exactly when that balance is positive and the affordability check
holds (followed by the notification and the fixed ten-second pause), the
token balance is then read whatever the outcome of the buy, the sell runs
exactly when the token balance is positive with no affordability
pre-check, and the iteration ends with the configured interval pause. -/
theorem cycle_structure (d w interval : Int) (env : CycleEnv) (bnb tokens : Int) (cb : Bool)
    (hbnb : env.bnbBalance = Except.ok bnb)
    (hcb : can_buy env.canBuyEnv bnb (some w) none = Except.ok cb)
    (htok : env.tokenBalance = Except.ok tokens)
    (hbuy : 0 < bnb ∧ cb = true → (buy d env.buyEnv bnb).2.isSome = true)
    (hsell : 0 < tokens → (sell d env.sellEnv tokens).2.isSome = true) :
    cycle d w interval env
      = ([Event.readBnb bnb]
          ++ (if 0 < bnb ∧ cb = true
              then [Event.buyCall bnb, Event.notifySent, Event.sleepSec 10] else [])
          ++ [Event.readTokens tokens]
          ++ (if 0 < tokens then [Event.sellCall tokens, Event.notifySent] else [])
          ++ [Event.sleepSec interval], some ()) := by
  by_cases h2 : 0 < tokens
  · rcases Option.isSome_iff_exists.mp (hsell h2) with ⟨rs, hrs⟩
    by_cases h1 : 0 < bnb
    · cases cb
      · unfold cycle
        simp [hbnb, htok, hcb, hrs, h1, h2]
      · rcases Option.isSome_iff_exists.mp (hbuy ⟨h1, rfl⟩) with ⟨rb, hrb⟩
        unfold cycle
        simp [hbnb, htok, hcb, hrb, hrs, h1, h2]
    · cases cb <;> unfold cycle <;> simp [hbnb, htok, hcb, hrs, h1, h2]
  · by_cases h1 : 0 < bnb
    · cases cb
      · unfold cycle
        simp [hbnb, htok, hcb, h1, h2]
      · rcases Option.isSome_iff_exists.mp (hbuy ⟨h1, rfl⟩) with ⟨rb, hrb⟩
        unfold cycle
        simp [hbnb, htok, hcb, hrb, h1, h2]
    · cases cb <;> unfold cycle <;> simp [hbnb, htok, hcb, h1, h2]

set_option maxRecDepth 40000 in
/-- C5 witness: the fully successful cycle runs read, buy, notify, short
pause, token read, sell, notify, interval pause in that order. -/
theorem cycle_structure_witness :
    cycle 1 0 30 okCycleEnv
      = ([Event.readBnb (10 ^ 18)]
          ++ (if 0 < (10 ^ 18 : Int) ∧ true = true
              then [Event.buyCall (10 ^ 18), Event.notifySent, Event.sleepSec 10] else [])
          ++ [Event.readTokens 7]
          ++ (if 0 < (7 : Int) then [Event.sellCall 7, Event.notifySent] else [])
          ++ [Event.sleepSec 30], some ()) :=
  cycle_structure 1 0 30 okCycleEnv (10 ^ 18) 7 true rfl (by decide) rfl
    (fun _ => by decide) (fun _ => by decide)

end Booster
